import Mathlib

/-!
Verification of the traindiary backend core logic.

The TypeScript source is shallowly embedded: JavaScript numbers are
modelled as exact rationals (`Rat`) or integers, nullable columns as
`Option`, database tables as lists of row structures, and each handler
or repository method as a pure function over that state.  Calendar
dates are modelled as integer day numbers (the source stores ISO date
strings at UTC midnight, so the millisecond difference divided by one
day is exactly the day-number difference).
-/

namespace Traindiary

/-- JS `x || d` on a nullable number: `null`/`undefined` and `0` are falsy. -/
def jsOrQ (x : Option ℚ) (d : ℚ) : ℚ :=
  match x with
  | none => d
  | some v => if v = 0 then d else v

/-- JS `x || d` on a nullable integer: `null`/`undefined` and `0` are falsy. -/
def jsOrZ (x : Option ℤ) (d : ℤ) : ℤ :=
  match x with
  | none => d
  | some v => if v = 0 then d else v

/-- Floor of a rational, computed from the reduced fraction with
floored integer division (`Rat.den` is always positive). -/
def ratFloor (q : ℚ) : ℤ := Int.fdiv q.num q.den

/-- JS `Math.round`: round half up, i.e. `⌊x + 1/2⌋`. -/
def jsRound (q : ℚ) : ℤ := ratFloor (q + 1/2)

/-- JS `Math.round(x * 100) / 100`: round to 2 decimals, half up. -/
def round2 (q : ℚ) : ℚ := (jsRound (q * 100) : ℚ) / 100


/-- One step of the streak loop in `ProgressRepository.getSummary`:
state is `(longestStreak, currentStreak, lastDate)`. -/
def streakStep (st : ℕ × ℕ × Option ℤ) (d : ℤ) : ℕ × ℕ × Option ℤ :=
  match st with
  | (longest, current, some last) =>
      if d - last = 1 then (longest, current + 1, some d)
      else (max longest current, 1, some d)
  | (longest, _, none) => (longest, 1, some d)

/-- The streak loop of `getSummary`: fold `streakStep` over the
ascending distinct date list, then `max(longestStreak, currentStreak)`. -/
def longestStreakCode (dates : List ℤ) : ℕ :=
  let st := dates.foldl streakStep (0, 0, none)
  max st.1 st.2.1

/-- Tail-form of the streak loop: current run of length `c` ends at
`p`, best finished run so far is `L`. -/
def streakAux (p : ℤ) (c L : ℕ) : List ℤ → ℕ
  | [] => max L c
  | d :: rest => if d - p = 1 then streakAux d (c + 1) L rest
                 else streakAux d 1 (max L c) rest

theorem foldl_streakStep_eq (l : List ℤ) (p : ℤ) (c L : ℕ) :
    (let st := l.foldl streakStep (L, c, some p); max st.1 st.2.1) = streakAux p c L l := by
  induction l generalizing p c L with
  | nil => simp [streakAux]
  | cons d rest ih =>
      simp only [List.foldl_cons, streakStep, streakAux]
      by_cases h : d - p = 1
      · simp [h, ih]
      · simp [h, ih]

theorem longestStreakCode_nil : longestStreakCode [] = 0 := rfl

theorem longestStreakCode_cons (p : ℤ) (l : List ℤ) :
    longestStreakCode (p :: l) = streakAux p 1 0 l := by
  simpa [longestStreakCode, streakStep] using foldl_streakStep_eq l p 1 0

/-- Number of consecutive integers `a, a+1, a+2, …` all present in `s`,
stopping after `fuel` steps. -/
def runFrom (s : List ℤ) (a : ℤ) : ℕ → ℕ
  | 0 => 0
  | fuel + 1 => if a ∈ s then runFrom s (a + 1) fuel + 1 else 0

/-- Length of the run of consecutive calendar days of `s` starting at
`a` (days `a, a+1, …` as long as they are present in `s`). -/
def runLen (s : List ℤ) (a : ℤ) : ℕ := runFrom s a s.length

/-- The longest run of consecutive calendar days within the date set
`s`: the maximum, over the days `a` present in `s`, of the length of
the consecutive run starting at `a`.  This is the specification-side
reading of "longest run of consecutive calendar days (day-over-day
difference exactly 1)". -/
def specStreak (s : List ℤ) : ℕ := (s.map (runLen s)).foldr max 0

theorem countP_ge_succ (s : List ℤ) (a : ℤ) (hmem : a ∈ s) (hnd : s.Nodup) :
    s.countP (fun x => decide (a + 1 ≤ x)) + 1 ≤ s.countP (fun x => decide (a ≤ x)) := by
  induction s with
  | nil => simp at hmem
  | cons b t ih =>
      rcases List.mem_cons.mp hmem with hb | ht
      · subst hb
        have hnota : a ∉ t := (List.nodup_cons.mp hnd).1
        have hle : t.countP (fun x => decide (a + 1 ≤ x)) ≤ t.countP (fun x => decide (a ≤ x)) := by
          apply List.countP_mono_left
          intro x _ hx
          simp only [decide_eq_true_eq] at *
          omega
        simp only [List.countP_cons]
        have : ¬ (a + 1 ≤ a) := by omega
        simp [this]
        omega
      · have hnd' : t.Nodup := (List.nodup_cons.mp hnd).2
        have := ih ht hnd'
        simp only [List.countP_cons]
        by_cases h1 : a + 1 ≤ b
        · have h2 : a ≤ b := by omega
          simp [h1, h2]
          omega
        · simp [h1]
          split <;> omega

theorem countP_le_length (s : List ℤ) (p : ℤ → Bool) : s.countP p ≤ s.length :=
  List.countP_le_length p

/-- `runFrom` is independent of the fuel once the fuel dominates the
number of elements of `s` that are `≥ a` (each step of the run
consumes one such element when `s` has no duplicates). -/
theorem runFrom_fuel_eq (s : List ℤ) (hnd : s.Nodup) :
    ∀ (f1 f2 : ℕ) (a : ℤ), s.countP (fun x => decide (a ≤ x)) ≤ f1 →
      s.countP (fun x => decide (a ≤ x)) ≤ f2 → runFrom s a f1 = runFrom s a f2 := by
  intro f1
  induction f1 with
  | zero =>
      intro f2 a h1 h2
      have hnotmem : a ∉ s := by
        intro hmem
        have := countP_ge_succ s a hmem hnd
        omega
      cases f2 with
      | zero => rfl
      | succ f2' => simp [runFrom, hnotmem]
  | succ f1' ih =>
      intro f2 a h1 h2
      cases f2 with
      | zero =>
          have hnotmem : a ∉ s := by
            intro hmem
            have := countP_ge_succ s a hmem hnd
            omega
          simp [runFrom, hnotmem]
      | succ f2' =>
          simp only [runFrom]
          by_cases hmem : a ∈ s
          · have hc := countP_ge_succ s a hmem hnd
            have := ih f2' (a + 1) (by omega) (by omega)
            simp [hmem, this]
          · simp [hmem]

theorem runLen_not_mem (s : List ℤ) (a : ℤ) (h : a ∉ s) : runLen s a = 0 := by
  unfold runLen
  cases hs : s.length with
  | zero => rfl
  | succ n => simp [runFrom, h]

theorem runLen_mem (s : List ℤ) (a : ℤ) (hmem : a ∈ s) (hnd : s.Nodup) :
    runLen s a = runLen s (a + 1) + 1 := by
  have hlen : 0 < s.length := List.length_pos_of_mem hmem
  obtain ⟨n, hn⟩ : ∃ n, s.length = n + 1 := ⟨s.length - 1, by omega⟩
  have hc := countP_ge_succ s a hmem hnd
  have hcl := countP_le_length s (fun x => decide (a ≤ x))
  unfold runLen
  rw [hn]
  rw [show runFrom s a (n + 1) = if a ∈ s then runFrom s (a + 1) n + 1 else 0 from rfl,
      if_pos hmem]
  congr 1
  apply runFrom_fuel_eq s hnd <;> omega

/-- Dropping a head element smaller than `a` does not change the run
starting at `a`. -/
theorem runFrom_cons_lt (d : ℤ) (t : List ℤ) (a : ℤ) (hda : d < a) :
    ∀ f, runFrom (d :: t) a f = runFrom t a f := by
  intro f
  induction f generalizing a with
  | zero => rfl
  | succ f' ih =>
      have hmem : (a ∈ d :: t) ↔ (a ∈ t) := by
        constructor
        · intro h
          rcases List.mem_cons.mp h with h | h
          · omega
          · exact h
        · intro h; exact List.mem_cons_of_mem d h
      simp only [runFrom]
      by_cases h : a ∈ t
      · simp [h, hmem.mpr h, ih (a + 1) (by omega)]
      · have : a ∉ d :: t := fun hc => h (hmem.mp hc)
        simp [h, this]

theorem runLen_cons_lt (d : ℤ) (t : List ℤ) (a : ℤ) (hda : d < a) (hnd : (d :: t).Nodup) :
    runLen (d :: t) a = runLen t a := by
  unfold runLen
  rw [runFrom_cons_lt d t a hda]
  apply runFrom_fuel_eq t (List.nodup_cons.mp hnd).2
  · have := countP_le_length t (fun x => decide (a ≤ x))
    simp only [List.length_cons]
    omega
  · exact countP_le_length t _

theorem specStreak_cons (d : ℤ) (t : List ℤ) (hsorted : (d :: t).Sorted (· < ·)) :
    specStreak (d :: t) = max (runLen (d :: t) d) (specStreak t) := by
  have hnd : (d :: t).Nodup := hsorted.nodup
  have hmap : t.map (runLen (d :: t)) = t.map (runLen t) := by
    apply List.map_congr_left
    intro a ha
    exact runLen_cons_lt d t a (List.rel_of_sorted_cons hsorted a ha) hnd
  simp only [specStreak, List.map_cons, List.foldr_cons, hmap]

/-- Core invariant of the streak loop: scanning the remainder `rest`
with a current run of length `c ≥ 1` ending at `p` yields the maximum
of the best finished run `L`, the current run extended into `rest`,
and the longest run inside `rest`. -/
theorem streakAux_eq_spec (rest : List ℤ) :
    ∀ (p : ℤ) (c L : ℕ), 1 ≤ c → (p :: rest).Sorted (· < ·) →
      streakAux p c L rest = max L (max (c + runLen rest (p + 1)) (specStreak rest)) := by
  induction rest with
  | nil =>
      intro p c L hc _
      simp [streakAux, runLen, runFrom, specStreak]
  | cons d rest' ih =>
      intro p c L hc hsorted
      have hpd : p < d := (List.sorted_cons.mp hsorted).1 d (List.mem_cons_self d rest')
      have hsorted' : (d :: rest').Sorted (· < ·) := (List.sorted_cons.mp hsorted).2
      have hnd' : (d :: rest').Nodup := hsorted'.nodup
      have hdmem : d ∈ d :: rest' := List.mem_cons_self d rest'
      have hrunD : runLen (d :: rest') d = runLen rest' (d + 1) + 1 := by
        rw [runLen_mem _ _ hdmem hnd', runLen_cons_lt d rest' (d + 1) (by omega) hnd']
      have hspec : specStreak (d :: rest') = max (runLen rest' (d + 1) + 1) (specStreak rest') := by
        rw [specStreak_cons d rest' hsorted', hrunD]
      simp only [streakAux]
      by_cases h : d - p = 1
      · -- consecutive: the current run extends
        have hd : d = p + 1 := by omega
        subst hd
        rw [if_pos h, ih (p + 1) (c + 1) L (by omega) hsorted', hspec, hrunD]
        omega
      · -- gap: the current run ends at p
        have hgap : p + 1 < d := by omega
        have hrun : runLen (d :: rest') (p + 1) = 0 := by
          apply runLen_not_mem
          intro hmem
          rcases List.mem_cons.mp hmem with heq | hmem'
          · omega
          · have := List.rel_of_sorted_cons hsorted' _ hmem'
            omega
        rw [if_neg h, ih d 1 (max L c) (by omega) hsorted', hspec, hrun]
        omega

/-- The streak loop computes exactly the longest run of consecutive
calendar days, on any strictly ascending date list. -/
theorem longestStreakCode_eq_specStreak (l : List ℤ) (hsorted : l.Sorted (· < ·)) :
    longestStreakCode l = specStreak l := by
  cases l with
  | nil => simp [longestStreakCode_nil, specStreak]
  | cons p rest =>
      rw [longestStreakCode_cons, streakAux_eq_spec rest p 1 0 (le_refl 1) hsorted]
      have hnd : (p :: rest).Nodup := hsorted.nodup
      have hrunP : runLen (p :: rest) p = runLen rest (p + 1) + 1 := by
        rw [runLen_mem _ _ (List.mem_cons_self p rest) hnd,
            runLen_cons_lt p rest (p + 1) (by omega) hnd]
      rw [specStreak_cons p rest hsorted, hrunP]
      omega

/-! ## Data model

Rows of the workout-side tables (`workout_sessions`, `session_details`,
`sessions_exercise_details`, `exercises`).  Nullable columns are
`Option`; dates are integer day numbers; statuses are the stored
strings. -/

structure ExerciseRow where
  exercise_id : ℕ
  etype : Option String
  category : Option String
  difficulty_factor : Option ℚ
deriving DecidableEq

structure SessionRow where
  session_id : ℕ
  user_id : ℕ
  scheduled_date : ℤ
  status : String
  gr_score : Option ℤ
  notes : Option String
deriving DecidableEq

structure DetailRow where
  session_detail_id : ℕ
  session_id : ℕ
  exercise_id : ℕ
  status : String
deriving DecidableEq

structure SetRow where
  set_id : ℕ
  session_detail_id : ℕ
  reps : Option ℤ
  weight_kg : Option ℚ
  duration : Option ℤ
  status : String
  notes : Option String
deriving DecidableEq

structure WorkoutDB where
  sessions : List SessionRow
  details : List DetailRow
  sets : List SetRow
  exercises : List ExerciseRow
deriving DecidableEq

/-- `session_details` rows of one session (the nested
`details:session_details(...)` join). -/
def sessionDetails (db : WorkoutDB) (sid : ℕ) : List DetailRow :=
  db.details.filter (fun d => d.session_id = sid)

/-- `sessions_exercise_details` rows of one session detail (the nested
`logs:sessions_exercise_details(...)` join). -/
def detailLogs (db : WorkoutDB) (sdid : ℕ) : List SetRow :=
  db.sets.filter (fun l => l.session_detail_id = sdid)

/-- The `exercise:exercises(...)` join of a session detail. -/
def detailExercise (db : WorkoutDB) (d : DetailRow) : Option ExerciseRow :=
  db.exercises.find? (fun e => e.exercise_id = d.exercise_id)

/-- `const difficulty = detail.exercise?.difficulty_factor || 1.0`. -/
def detailDifficulty (db : WorkoutDB) (d : DetailRow) : ℚ :=
  jsOrQ ((detailExercise db d).bind (fun e => e.difficulty_factor)) 1

/-- One log's contribution inside the gr-score loop:
`reps * weight * difficulty` with `reps = log.reps || 0` and
`weight = log.weight_kg || 0`. -/
def grLogContribution (difficulty : ℚ) (l : SetRow) : ℚ :=
  (jsOrZ l.reps 0 : ℚ) * jsOrQ l.weight_kg 0 * difficulty

/-- The `totalGrScore` accumulation of `WorkoutRepository.updateSession`
(`log.repository.ts`): a `forEach` over the session's details, and for
each detail a `forEach` over its logs. -/
def grScoreTotal (db : WorkoutDB) (sid : ℕ) : ℚ :=
  (sessionDetails db sid).foldl
    (fun acc d =>
      (detailLogs db d.session_detail_id).foldl
        (fun acc2 l => acc2 + grLogContribution (detailDifficulty db d) l) acc)
    0

/-- Specification-side reading of the performance-score formula: the
sum over all of the session's details, and all their child sets, of
`reps × weight_kg × difficulty_factor`. -/
def grScoreSpec (db : WorkoutDB) (sid : ℕ) : ℚ :=
  ((sessionDetails db sid).map (fun d =>
    ((detailLogs db d.session_detail_id).map
      (grLogContribution (detailDifficulty db d))).sum)).sum

/-! ## Period-summary aggregation (`ProgressRepository.getSummary`)

The workouts query filters one user's sessions to the window
`[startDate, endDate)`.  Its `ORDER BY scheduled_date` is dropped from
the model: the streak recomputes its own sorted date list and the
other accumulations are order-insensitive sums. -/

def summaryWorkouts (db : WorkoutDB) (uid : ℕ) (startD endD : ℤ) : List SessionRow :=
  db.sessions.filter
    (fun w => w.user_id = uid ∧ startD ≤ w.scheduled_date ∧ w.scheduled_date < endD)

/-- `Array.from(new Set(completedWorkouts.map(w => w.scheduled_date))).sort()`:
the ascending-sorted distinct list of scheduled dates of `COMPLETED`
sessions in the window.  (`List.dedup` keeps the last occurrence
whereas a JS `Set` keeps the first, but after sorting the two agree.) -/
def completedDatesSorted (db : WorkoutDB) (uid : ℕ) (startD endD : ℤ) : List ℤ :=
  ((((summaryWorkouts db uid startD endD).filter
      (fun w => w.status = "COMPLETED")).map (fun w => w.scheduled_date)).dedup).insertionSort
    (· ≤ ·)

/-- The `longest_streak` value computed by `getSummary`. -/
def summaryStreak (db : WorkoutDB) (uid : ℕ) (startD endD : ℤ) : ℕ :=
  longestStreakCode (completedDatesSorted db uid startD endD)

/-- `const effectiveWeight = weight > 0 ? weight : 1`. -/
def effWeight (w : ℚ) : ℚ := if 0 < w then w else 1

/-- One log's volume: `reps * effectiveWeight`. -/
def logVolume (l : SetRow) : ℚ :=
  (jsOrZ l.reps 0 : ℚ) * effWeight (jsOrQ l.weight_kg 0)

/-- The `totalVolume` accumulation of `getSummary`: a `forEach` over
the window's workouts, skipping non-`COMPLETED` sessions, then nested
`forEach`es over details and logs.  (The `totalGrScore` and
`muscleGroups` accumulators of the same loop are independent and are
not modelled here.) -/
def summaryVolumeTotal (db : WorkoutDB) (uid : ℕ) (startD endD : ℤ) : ℚ :=
  (summaryWorkouts db uid startD endD).foldl
    (fun acc w =>
      if w.status = "COMPLETED" then
        (sessionDetails db w.session_id).foldl
          (fun acc2 d =>
            (detailLogs db d.session_detail_id).foldl
              (fun acc3 l => acc3 + logVolume l) acc2)
          acc
      else acc)
    0

/-- The `total_volume` field returned by `getSummary`:
`Math.round(totalVolume)`. -/
def summaryTotalVolume (db : WorkoutDB) (uid : ℕ) (startD endD : ℤ) : ℤ :=
  jsRound (summaryVolumeTotal db uid startD endD)

/-- Volume of a set as the claim words it: `reps × max(weight_kg, 1)`. -/
def claimLogVolume (l : SetRow) : ℚ :=
  (jsOrZ l.reps 0 : ℚ) * max (jsOrQ l.weight_kg 0) 1

/-- Sum of `f` over all logged sets of `COMPLETED` sessions of the
window, structured as session → detail → set map-sums. -/
def completedSetsSum (db : WorkoutDB) (uid : ℕ) (startD endD : ℤ) (f : SetRow → ℚ) : ℚ :=
  ((db.sessions.filter (fun w => w.user_id = uid ∧ startD ≤ w.scheduled_date ∧
      w.scheduled_date < endD ∧ w.status = "COMPLETED")).map (fun w =>
    ((sessionDetails db w.session_id).map (fun d =>
      ((detailLogs db d.session_detail_id).map f).sum)).sum)).sum

/-! ## Set / log mutations (`WorkoutRepository`)

`log.repository.ts` contains two revisions of the repository: a legacy
one (`updateLogV1` below) that recomputes the parent detail status,
and the cardio-aware one (`updateLogV2`, `createLogV2`) that routes
`reps`/`weight_kg` vs `duration` by exercise type. -/

/-- JS `x || d` on a nullable string: `null`/`undefined` and `''` are falsy. -/
def jsOrStr (x : Option String) (d : String) : String :=
  match x with
  | none => d
  | some s => if s = "" then d else s

theorem toLower_lit_strength : "strength".toLower = "strength" := by
  rw [String.toLower, String.map_eq]
  decide

theorem toLower_lit_cardio : "cardio".toLower = "cardio" := by
  rw [String.toLower, String.map_eq]
  decide

/-- `const normalizeExerciseType = (type) => (type || '').toLowerCase()`. -/
def normalizeExerciseType (t : Option String) : String := (jsOrStr t "").toLower

/-- `isCardioBySessionDetailId`: detail lookup → `exercise_id` →
exercise lookup → normalized type equals `'cardio'`.  `none` models a
thrown error from a failed `.single()` lookup. -/
def isCardioBySessionDetailId (db : WorkoutDB) (sdid : ℕ) : Option Bool :=
  match db.details.find? (fun d => d.session_detail_id = sdid) with
  | none => none
  | some d =>
      if d.exercise_id = 0 then some false
      else
        match db.exercises.find? (fun e => e.exercise_id = d.exercise_id) with
        | none => none
        | some e => some (normalizeExerciseType e.etype = "cardio")

/-- `isCardioByLogId`: set lookup → its `session_detail_id` → detail chain. -/
def isCardioByLogId (db : WorkoutDB) (logId : ℕ) : Option Bool :=
  match db.sets.find? (fun l => l.set_id = logId) with
  | none => none
  | some l => isCardioBySessionDetailId db l.session_detail_id

/-- A JS `status` input, which the repository accepts either as a
boolean or as a status string. -/
inductive LogStatusVal where
  | bool (b : Bool)
  | str (s : String)

/-- Boolean statuses map to `COMPLETED`/`UNFINISHED`; strings pass through. -/
def logStatusToString : LogStatusVal → String
  | .bool b => if b then "COMPLETED" else "UNFINISHED"
  | .str s => s

/-- Request body of a set create/update (`logData`). -/
structure LogUpdateBody where
  actual_reps : Option ℤ := none
  reps : Option ℤ := none
  weight_kg : Option ℚ := none
  duration : Option ℤ := none
  actual_duration : Option ℤ := none
  duration_seconds : Option ℤ := none
  notes : Option String := none
  status : Option LogStatusVal := none

/-- The cardio duration resolution of `updateLog`:
`duration ?? actual_duration ?? (duration_seconds ? Math.round(duration_seconds/60) : undefined)`. -/
def durationUpdateValue (b : LogUpdateBody) : Option ℤ :=
  match b.duration with
  | some v => some v
  | none =>
      match b.actual_duration with
      | some v => some v
      | none =>
          match b.duration_seconds with
          | some ds => if ds ≠ 0 then some (jsRound ((ds : ℚ) / 60)) else none
          | none => none

/-- Cardio-aware `WorkoutRepository.updateLog`: only the field matching
the exercise type goes into `updateData`; the set row is updated and
returned.  No parent-detail recomputation happens in this revision. -/
def updateLogV2 (db : WorkoutDB) (logId : ℕ) (b : LogUpdateBody) :
    Option (WorkoutDB × SetRow) :=
  match isCardioByLogId db logId with
  | none => none
  | some isCardio =>
      let repsU : Option ℤ :=
        if isCardio then none else
          match b.actual_reps with
          | some v => some v
          | none => b.reps
      let durU : Option ℤ := if isCardio then durationUpdateValue b else none
      let wU : Option ℚ := if isCardio then none else b.weight_kg
      let stU : Option String := b.status.map logStatusToString
      match db.sets.find? (fun l => l.set_id = logId) with
      | none => none
      | some row =>
          let newRow : SetRow :=
            { row with
              reps := match repsU with | some v => some v | none => row.reps
              duration := match durU with | some v => some v | none => row.duration
              weight_kg := match wU with | some v => some v | none => row.weight_kg
              status := stU.getD row.status
              notes := match b.notes with | some v => some v | none => row.notes }
          some ({ db with
                  sets := db.sets.map (fun l => if l.set_id = logId then newRow else l) },
                newRow)

/-- Legacy `WorkoutRepository.updateLog`: updates the set row, then
recomputes the parent `session_details.status` as
`COMPLETED iff every sibling log is COMPLETED`. -/
def updateLogV1 (db : WorkoutDB) (logId : ℕ) (b : LogUpdateBody) :
    Option (WorkoutDB × SetRow) :=
  match db.sets.find? (fun l => l.set_id = logId) with
  | none => none
  | some row =>
      let newRow : SetRow :=
        { row with
          reps := match b.actual_reps with
                  | some v => some v
                  | none => match b.reps with | some v => some v | none => row.reps
          weight_kg := match b.weight_kg with | some v => some v | none => row.weight_kg
          status := (b.status.map logStatusToString).getD row.status
          notes := match b.notes with | some v => some v | none => row.notes }
      let db1 : WorkoutDB :=
        { db with sets := db.sets.map (fun l => if l.set_id = logId then newRow else l) }
      if newRow.session_detail_id ≠ 0 then
        let siblings := db1.sets.filter
          (fun l => l.session_detail_id = newRow.session_detail_id)
        let newStatus :=
          if siblings.all (fun l => l.status = "COMPLETED") then "COMPLETED" else "UNFINISHED"
        some ({ db1 with
                details := db1.details.map (fun d =>
                  if d.session_detail_id = newRow.session_detail_id then
                    { d with status := newStatus }
                  else d) },
              newRow)
      else some (db1, newRow)

/-- Cardio-aware `WorkoutRepository.createLog`: the inserted row gets
`reps`/`weight_kg` zeroed under a cardio exercise and `duration`
zeroed otherwise.  `newSetId` stands for the store-generated id. -/
def createLogV2 (db : WorkoutDB) (sdid : ℕ) (b : LogUpdateBody) (newSetId : ℕ) :
    Option (WorkoutDB × SetRow) :=
  match isCardioBySessionDetailId db sdid with
  | none => none
  | some isCardio =>
      let status :=
        match b.status with
        | none => "UNFINISHED"
        | some v => logStatusToString v
      let durationMinutes : ℤ :=
        match b.duration with
        | some v => v
        | none =>
            match b.actual_duration with
            | some v => v
            | none =>
                match b.duration_seconds with
                | some ds => if ds ≠ 0 then jsRound ((ds : ℚ) / 60) else 0
                | none => 0
      let row : SetRow :=
        { set_id := newSetId
          session_detail_id := sdid
          reps := some (if isCardio then 0 else jsOrZ b.actual_reps (jsOrZ b.reps 0))
          duration := some (if isCardio then durationMinutes else 0)
          weight_kg := some (if isCardio then 0 else jsOrQ b.weight_kg 0)
          status := status
          notes := match b.notes with
                   | some s => if s = "" then none else some s
                   | none => none }
      some ({ db with sets := db.sets ++ [row] }, row)

/-! ## Session mutations -/

/-- Request body of `WorkoutRepository.updateSession` (the session
`type` column is not modelled; no claim concerns it). -/
structure SessionUpdateBody where
  notes : Option String := none
  scheduled_date : Option ℤ := none
  status : Option String := none
  completed : Option Bool := none

/-- The status written by `updateSession`: an explicit `status` field
wins; otherwise a supplied `completed` boolean maps to
`COMPLETED`/`IN_PROGRESS`; otherwise the status is not updated. -/
def sessionEffectiveStatus (b : SessionUpdateBody) : Option String :=
  match b.status with
  | some s => some s
  | none => b.completed.map (fun c => if c then "COMPLETED" else "IN_PROGRESS")

/-- Cardio-aware `WorkoutRepository.updateSession`: when the update
sets status `COMPLETED`, the gr score is recomputed over the current
rows and written together with the other fields; the update applies to
the row matching both `session_id` and `user_id`. -/
def updateSession (db : WorkoutDB) (sid uid : ℕ) (b : SessionUpdateBody) : WorkoutDB :=
  let statusU := sessionEffectiveStatus b
  let grU : Option ℤ :=
    if statusU = some "COMPLETED" then some (jsRound (grScoreTotal db sid)) else none
  { db with
    sessions := db.sessions.map (fun s =>
      if s.session_id = sid ∧ s.user_id = uid then
        { s with
          notes := match b.notes with | some v => some v | none => s.notes
          scheduled_date := b.scheduled_date.getD s.scheduled_date
          status := statusU.getD s.status
          gr_score := match grU with | some g => some g | none => s.gr_score }
      else s) }

/-- Outcome of an AI-surface handler (ignoring response payloads). -/
inductive AiOutcome where
  | ok
  | validationError
  | entityNotFound
  | accessDenied
deriving DecidableEq

/-- Scenario B of the AI `PUT /sessions` handler (batch status
update): one `UPDATE … WHERE session_id IN ids AND user_id = uid`.
The gr score is not touched. -/
def aiSessionsBatchPut (db : WorkoutDB) (uid : ℕ) (ids : List ℕ) (status : String) :
    WorkoutDB :=
  { db with
    sessions := db.sessions.map (fun s =>
      if s.session_id ∈ ids ∧ s.user_id = uid then { s with status := status } else s) }

/-- The AI `DELETE /sessions` handler: one
`DELETE … WHERE session_id IN ids AND user_id = uid`. -/
def aiSessionsDelete (db : WorkoutDB) (uid : ℕ) (ids : List ℕ) : AiOutcome × WorkoutDB :=
  if ids = [] then (.validationError, db)
  else
    (.ok,
     { db with
       sessions := db.sessions.filter (fun s => ¬ (s.session_id ∈ ids ∧ s.user_id = uid)) })

/-- The AI `DELETE /sets` handler: resolve the ids to set rows, walk
their detail/session rows, require every fetched session to belong to
the caller, then delete all the ids. -/
def aiSetsDelete (db : WorkoutDB) (uid : ℕ) (ids : List ℕ) : AiOutcome × WorkoutDB :=
  if ids = [] then (.validationError, db)
  else
    let sets := db.sets.filter (fun s => s.set_id ∈ ids)
    let sessionDetailIds := sets.map (fun s => s.session_detail_id)
    let details := db.details.filter (fun d => d.session_detail_id ∈ sessionDetailIds)
    let sessionIds := details.map (fun d => d.session_id)
    let sessions := db.sessions.filter (fun s => s.session_id ∈ sessionIds)
    if sessions.all (fun s => s.user_id = uid) then
      (.ok, { db with sets := db.sets.filter (fun s => ¬ s.set_id ∈ ids) })
    else (.accessDenied, db)

/-- Request body of the AI `PUT /sets` handler. -/
structure AiSetPutBody where
  set_id : ℕ
  reps : Option ℤ := none
  weight_kg : Option ℚ := none
  status : Option String := none
  notes : Option String := none
  duration : Option ℤ := none

/-- The AI `PUT /sets` handler: 3-hop ownership walk (set → detail →
session → user), then an update built from whichever fields the body
supplies — with no cardio/strength dispatch. -/
def aiSetsPut (db : WorkoutDB) (uid : ℕ) (b : AiSetPutBody) : AiOutcome × WorkoutDB :=
  if b.set_id = 0 then (.validationError, db)
  else
    match db.sets.find? (fun l => l.set_id = b.set_id) with
    | none => (.entityNotFound, db)
    | some ed =>
        match db.details.find? (fun d => d.session_detail_id = ed.session_detail_id) with
        | none => (.entityNotFound, db)
        | some sd =>
            match db.sessions.find? (fun s => s.session_id = sd.session_id) with
            | none => (.accessDenied, db)
            | some sess =>
                if sess.user_id = uid then
                  (.ok,
                   { db with
                     sets := db.sets.map (fun l =>
                       if l.set_id = b.set_id then
                         { l with
                           reps := match b.reps with | some v => some v | none => l.reps
                           weight_kg := match b.weight_kg with
                                        | some v => some v
                                        | none => l.weight_kg
                           status := match b.status with
                                     | some s => if s = "" then l.status else s
                                     | none => l.status
                           notes := match b.notes with | some v => some v | none => l.notes
                           duration := match b.duration with
                                       | some v => some v
                                       | none => l.duration }
                       else l) })
                else (.accessDenied, db)

/-- Ownership walk of the AI `GET /session-details` handler: a missing
detail, a missing session, and an existing session owned by a
different user all get `ENTITY_NOT_FOUND`. -/
def sessionDetailsGetOutcome (db : WorkoutDB) (uid : ℕ) (sdid : ℕ) : AiOutcome :=
  match db.details.find? (fun d => d.session_detail_id = sdid) with
  | none => .entityNotFound
  | some sd =>
      match db.sessions.find? (fun s => s.session_id = sd.session_id) with
      | none => .entityNotFound
      | some s => if s.user_id = uid then .ok else .entityNotFound

/-! ## Meal-side model -/

structure MealRowOwn where
  meal_id : ℕ
  user_id : ℕ
deriving DecidableEq

structure MealDetailRow where
  meal_detail_id : ℕ
  meal_id : ℕ
  food_id : ℕ
  numbers_of_serving : Option ℚ
deriving DecidableEq

structure MealDB where
  meals : List MealRowOwn
  mealDetails : List MealDetailRow
deriving DecidableEq

/-- Ownership part of the AI `POST /meal-foods` handler: a missing
meal and a meal owned by someone else both get `ACCESS_DENIED`;
`.ok` stands for passing the check and reaching the insert. -/
def mealFoodsPostOutcome (db : MealDB) (uid : ℕ) (mealId : ℕ)
    (foods : List (ℕ × Option ℚ)) : AiOutcome :=
  if mealId = 0 ∨ foods = [] then .validationError
  else
    match db.meals.find? (fun m => m.meal_id = mealId) with
    | none => .accessDenied
    | some m =>
        if m.user_id = uid then
          if foods.all (fun f => f.1 ≠ 0 ∧ f.2 ≠ none) then .ok else .validationError
        else .accessDenied

/-- Ownership walk of the AI `PUT /meal-foods` handler: missing meal
detail → `ENTITY_NOT_FOUND`; missing meal or foreign owner →
`ACCESS_DENIED`. -/
def mealFoodsPutOutcome (db : MealDB) (uid : ℕ) (mealDetailId : ℕ) (nos : Option ℚ) :
    AiOutcome :=
  if mealDetailId = 0 ∨ nos = none then .validationError
  else
    match db.mealDetails.find? (fun d => d.meal_detail_id = mealDetailId) with
    | none => .entityNotFound
    | some md =>
        match db.meals.find? (fun m => m.meal_id = md.meal_id) with
        | none => .accessDenied
        | some m => if m.user_id = uid then .ok else .accessDenied

/-! ## Per-meal nutrition rollup (`MealRepository.findByUserId`) -/

/-- The per-serving nutrient columns selected from `foods`. -/
structure FoodJoin where
  calories_per_serving : Option ℚ := none
  protein_per_serving : Option ℚ := none
  carbs_per_serving : Option ℚ := none
  fat_per_serving : Option ℚ := none
  fibers_per_serving : Option ℚ := none
  sugars_per_serving : Option ℚ := none
  zincs_per_serving : Option ℚ := none
  magnesiums_per_serving : Option ℚ := none
  calciums_per_serving : Option ℚ := none
  irons_per_serving : Option ℚ := none
  vitamin_a_per_serving : Option ℚ := none
  vitamin_c_per_serving : Option ℚ := none
  vitamin_b12_per_serving : Option ℚ := none
  vitamin_d_per_serving : Option ℚ := none

/-- One `user_meal_details` row with its `food:foods(...)` join. -/
structure MealFoodJoin where
  numbers_of_serving : Option ℚ
  food : Option FoodJoin

/-- One meal with its joined detail rows. -/
structure MealJoin where
  meal_id : ℕ
  details : List MealFoodJoin

/-- The 14-field `totals` accumulator of the rollup. -/
structure NutrientTotals where
  calories : ℚ
  protein : ℚ
  carbs : ℚ
  fat : ℚ
  fibers : ℚ
  sugars : ℚ
  zincs : ℚ
  magnesiums : ℚ
  calciums : ℚ
  irons : ℚ
  vitamin_a : ℚ
  vitamin_c : ℚ
  vitamin_b12 : ℚ
  vitamin_d : ℚ

def emptyTotals : NutrientTotals := ⟨0, 0, 0, 0, 0, 0, 0, 0, 0, 0, 0, 0, 0, 0⟩

/-- One iteration of the `meal.details.forEach` accumulation:
`servings = detail.numbers_of_serving || 0`, skip when the food join is
null, otherwise add `(food.X_per_serving || 0) * servings` to each
running total. -/
def rollupStep (t : NutrientTotals) (detail : MealFoodJoin) : NutrientTotals :=
  let servings := jsOrQ detail.numbers_of_serving 0
  match detail.food with
  | none => t
  | some food =>
      { calories := t.calories + jsOrQ food.calories_per_serving 0 * servings
        protein := t.protein + jsOrQ food.protein_per_serving 0 * servings
        carbs := t.carbs + jsOrQ food.carbs_per_serving 0 * servings
        fat := t.fat + jsOrQ food.fat_per_serving 0 * servings
        fibers := t.fibers + jsOrQ food.fibers_per_serving 0 * servings
        sugars := t.sugars + jsOrQ food.sugars_per_serving 0 * servings
        zincs := t.zincs + jsOrQ food.zincs_per_serving 0 * servings
        magnesiums := t.magnesiums + jsOrQ food.magnesiums_per_serving 0 * servings
        calciums := t.calciums + jsOrQ food.calciums_per_serving 0 * servings
        irons := t.irons + jsOrQ food.irons_per_serving 0 * servings
        vitamin_a := t.vitamin_a + jsOrQ food.vitamin_a_per_serving 0 * servings
        vitamin_c := t.vitamin_c + jsOrQ food.vitamin_c_per_serving 0 * servings
        vitamin_b12 := t.vitamin_b12 + jsOrQ food.vitamin_b12_per_serving 0 * servings
        vitamin_d := t.vitamin_d + jsOrQ food.vitamin_d_per_serving 0 * servings }

/-- The raw totals of one meal. -/
def mealTotalsRaw (m : MealJoin) : NutrientTotals := m.details.foldl rollupStep emptyTotals

/-- The `total_*` fields returned per meal: each raw total rounded via
`Math.round(x * 100) / 100`. -/
def mealRollup (m : MealJoin) : NutrientTotals :=
  let t := mealTotalsRaw m
  { calories := round2 t.calories
    protein := round2 t.protein
    carbs := round2 t.carbs
    fat := round2 t.fat
    fibers := round2 t.fibers
    sugars := round2 t.sugars
    zincs := round2 t.zincs
    magnesiums := round2 t.magnesiums
    calciums := round2 t.calciums
    irons := round2 t.irons
    vitamin_a := round2 t.vitamin_a
    vitamin_c := round2 t.vitamin_c
    vitamin_b12 := round2 t.vitamin_b12
    vitamin_d := round2 t.vitamin_d }

/-- Specification-side contribution of one detail row to a nutrient:
`food.N_per_serving × numbers_of_serving`, missing values as 0. -/
def nutrientContrib (f : FoodJoin → Option ℚ) (d : MealFoodJoin) : ℚ :=
  jsOrQ (d.food.bind f) 0 * jsOrQ d.numbers_of_serving 0

/-- Specification-side total of one nutrient over a meal. -/
def nutrientSum (m : MealJoin) (f : FoodJoin → Option ℚ) : ℚ :=
  (m.details.map (nutrientContrib f)).sum

/-! ## Email verification (`POST /api/auth/verify`) -/

structure UserRow where
  user_id : ℕ
  verified : Bool
  verification_code : Option String
  verification_token : Option String
  verification_expires_at : Option ℤ
deriving DecidableEq

/-- Responses of the verify endpoint; `invalidCodeOrToken` is the
generic `'Invalid verification code or token'` 400, `expired` is the
`'Verification expired. Please sign up again.'` 400. -/
inductive VerifyResp where
  | invalidCodeOrToken
  | alreadyVerified
  | expired
  | verifiedOk
deriving DecidableEq

/-- The user lookup of the verify POST handler:
`token ? findByVerificationToken(token) : code ? findByVerificationCode(code) : null`. -/
def verifyLookup (users : List UserRow) (token code : Option String) : Option UserRow :=
  match token with
  | some t => users.find? (fun u => u.verification_token = some t)
  | none =>
      match code with
      | some c => users.find? (fun u => u.verification_code = some c)
      | none => none

/-- `!user.verification_expires_at || new Date(...) < new Date()`. -/
def verificationExpired (u : UserRow) (now : ℤ) : Bool :=
  match u.verification_expires_at with
  | none => true
  | some e => e < now

/-- The verify POST handler: generic invalid error when no user
matches; `already verified` short-circuit; expired users are deleted
and get the expiry-specific error; otherwise the user is verified. -/
def verifyPost (users : List UserRow) (token code : Option String) (now : ℤ) :
    VerifyResp × List UserRow :=
  match verifyLookup users token code with
  | none => (.invalidCodeOrToken, users)
  | some u =>
      if u.verified then (.alreadyVerified, users)
      else if verificationExpired u now then
        (.expired, users.filter (fun x => x.user_id ≠ u.user_id))
      else
        (.verifiedOk,
         users.map (fun x =>
           if x.user_id = u.user_id then
             { x with
               verified := true
               verification_code := none
               verification_token := none
               verification_expires_at := none }
           else x))

/-! ## Fold-to-sum lemmas -/

theorem foldl_add_sum {α : Type _} (f : α → ℚ) :
    ∀ (l : List α) (a : ℚ), l.foldl (fun acc x => acc + f x) a = a + (l.map f).sum := by
  intro l
  induction l with
  | nil => simp
  | cons x t ih => intro a; simp [ih, add_assoc]

theorem foldl_proj {α β : Type _} (step : β → α → β) (proj : β → ℚ) (f : α → ℚ)
    (h : ∀ t d, proj (step t d) = proj t + f d) :
    ∀ (l : List α) (t : β), proj (l.foldl step t) = proj t + (l.map f).sum := by
  intro l
  induction l with
  | nil => simp
  | cons x t ih => intro a; simp [ih, h, add_assoc]

theorem sum_map_ite {α : Type _} (p : α → Prop) [DecidablePred p] (f : α → ℚ)
    (l : List α) :
    (l.map (fun x => if p x then f x else 0)).sum
      = ((l.filter (fun x => decide (p x))).map f).sum := by
  induction l with
  | nil => rfl
  | cons x t ih =>
      by_cases h : p x <;> simp [h, ih]

theorem foldl_step_sum {α : Type _} (f : α → ℚ) (step : ℚ → α → ℚ)
    (h : ∀ t d, step t d = t + f d) :
    ∀ (l : List α) (t : ℚ), l.foldl step t = t + (l.map f).sum := by
  intro l
  induction l with
  | nil => simp
  | cons x t ih =>
      intro a
      rw [List.foldl_cons, h, ih, List.map_cons, List.sum_cons, add_assoc]

/-- The `totalGrScore` double `forEach` equals the double map-sum. -/
theorem grScoreTotal_eq_spec (db : WorkoutDB) (sid : ℕ) :
    grScoreTotal db sid = grScoreSpec db sid := by
  unfold grScoreTotal grScoreSpec
  exact (foldl_step_sum
    (fun d => ((detailLogs db d.session_detail_id).map
      (grLogContribution (detailDifficulty db d))).sum)
    (fun acc d => (detailLogs db d.session_detail_id).foldl
      (fun acc2 l => acc2 + grLogContribution (detailDifficulty db d) l) acc)
    (fun t d => foldl_add_sum (grLogContribution (detailDifficulty db d))
      (detailLogs db d.session_detail_id) t)
    (sessionDetails db sid) 0).trans (zero_add _)

/-- The inner detail/log double fold of the volume loop, as a sum. -/
theorem volumeInnerFold_eq_sum (db : WorkoutDB) (sid2 : ℕ) (acc : ℚ) :
    (sessionDetails db sid2).foldl
      (fun acc2 d =>
        (detailLogs db d.session_detail_id).foldl
          (fun acc3 l => acc3 + logVolume l) acc2) acc
    = acc + ((sessionDetails db sid2).map (fun d =>
        ((detailLogs db d.session_detail_id).map logVolume).sum)).sum :=
  foldl_step_sum
    (fun d => ((detailLogs db d.session_detail_id).map logVolume).sum)
    (fun acc2 d => (detailLogs db d.session_detail_id).foldl
      (fun acc3 l => acc3 + logVolume l) acc2)
    (fun t d => foldl_add_sum logVolume (detailLogs db d.session_detail_id) t)
    (sessionDetails db sid2) acc

/-- The `totalVolume` accumulation equals the volume sum over the
window's `COMPLETED` sessions. -/
theorem summaryVolumeTotal_eq_sum (db : WorkoutDB) (uid : ℕ) (startD endD : ℤ) :
    summaryVolumeTotal db uid startD endD = completedSetsSum db uid startD endD logVolume := by
  unfold summaryVolumeTotal completedSetsSum
  have hstep : ∀ (acc : ℚ) (w : SessionRow),
      (if w.status = "COMPLETED" then
        (sessionDetails db w.session_id).foldl
          (fun acc2 d =>
            (detailLogs db d.session_detail_id).foldl
              (fun acc3 l => acc3 + logVolume l) acc2)
          acc
      else acc)
      = acc + (if w.status = "COMPLETED" then
          ((sessionDetails db w.session_id).map (fun d =>
            ((detailLogs db d.session_detail_id).map logVolume).sum)).sum
        else 0) := by
    intro acc w
    by_cases h : w.status = "COMPLETED"
    · simp only [h, if_true]
      exact volumeInnerFold_eq_sum db w.session_id acc
    · simp [h]
  rw [foldl_step_sum _ _ hstep, zero_add,
      sum_map_ite (fun (w : SessionRow) => w.status = "COMPLETED")
        (fun w => ((sessionDetails db w.session_id).map (fun d =>
          ((detailLogs db d.session_detail_id).map logVolume).sum)).sum)
        (summaryWorkouts db uid startD endD)]
  unfold summaryWorkouts
  rw [List.filter_filter]
  congr 1
  congr 1
  apply List.filter_congr
  intro w _
  exact Bool.eq_iff_iff.mpr (by simp only [Bool.and_eq_true, decide_eq_true_eq]; tauto)

theorem completedDatesSorted_sorted_lt (db : WorkoutDB) (uid : ℕ) (startD endD : ℤ) :
    (completedDatesSorted db uid startD endD).Sorted (· < ·) := by
  unfold completedDatesSorted
  have hle := List.sorted_insertionSort (· ≤ ·)
    ((((summaryWorkouts db uid startD endD).filter
        (fun w => w.status = "COMPLETED")).map (fun w => w.scheduled_date)).dedup)
  have hperm := List.perm_insertionSort (· ≤ ·)
    ((((summaryWorkouts db uid startD endD).filter
        (fun w => w.status = "COMPLETED")).map (fun w => w.scheduled_date)).dedup)
  exact hle.lt_of_le (hperm.nodup_iff.mpr (List.nodup_dedup _))

/-- Four COMPLETED sessions of user 1 on days 10, 11, 12 and 15. -/
def streakDb : WorkoutDB :=
  { sessions := [⟨1, 1, 10, "COMPLETED", none, none⟩, ⟨2, 1, 11, "COMPLETED", none, none⟩,
                 ⟨3, 1, 12, "COMPLETED", none, none⟩, ⟨4, 1, 15, "COMPLETED", none, none⟩]
    details := []
    sets := []
    exercises := [] }

/-- C4: for every user and window, the period-summary streak equals the
length of the longest run of consecutive calendar days (day-over-day
difference exactly 1) within the ascending-sorted distinct set of
scheduled dates of COMPLETED sessions inside the window; in particular
dates `[D, D+1, D+2, D+5]` give streak 3, an empty set gives 0, a
single date gives 1. -/
theorem summaryStreak_is_longest_consecutive_run :
    (∀ (db : WorkoutDB) (uid : ℕ) (startD endD : ℤ),
        summaryStreak db uid startD endD
          = specStreak (completedDatesSorted db uid startD endD))
    ∧ (∀ (db : WorkoutDB) (uid : ℕ) (startD endD : ℤ) (x : ℤ),
        x ∈ completedDatesSorted db uid startD endD
          ↔ ∃ w ∈ db.sessions, w.user_id = uid ∧ startD ≤ w.scheduled_date ∧
              w.scheduled_date < endD ∧ w.status = "COMPLETED" ∧ w.scheduled_date = x)
    ∧ (∀ (db : WorkoutDB) (uid : ℕ) (startD endD : ℤ),
        (completedDatesSorted db uid startD endD).Sorted (· < ·))
    ∧ (∀ D : ℤ, longestStreakCode [D, D + 1, D + 2, D + 5] = 3)
    ∧ summaryStreak streakDb 1 0 20 = 3
    ∧ longestStreakCode [] = 0
    ∧ (∀ D : ℤ, longestStreakCode [D] = 1) := by
  refine ⟨?_, ?_, completedDatesSorted_sorted_lt, ?_, by decide, longestStreakCode_nil, ?_⟩
  · intro db uid startD endD
    exact longestStreakCode_eq_specStreak _ (completedDatesSorted_sorted_lt db uid startD endD)
  · intro db uid startD endD x
    unfold completedDatesSorted summaryWorkouts
    rw [(List.perm_insertionSort (· ≤ ·) _).mem_iff, List.mem_dedup]
    simp only [List.mem_map, List.mem_filter, decide_eq_true_eq]
    constructor
    · rintro ⟨w, ⟨⟨hmem, h1, h2, h3⟩, h4⟩, h5⟩
      exact ⟨w, hmem, h1, h2, h3, h4, h5⟩
    · rintro ⟨w, hmem, h1, h2, h3, h4, h5⟩
      exact ⟨w, ⟨⟨hmem, h1, h2, h3⟩, h4⟩, h5⟩
  · intro D
    rw [longestStreakCode_cons]
    simp only [streakAux]
    split_ifs <;> omega
  · intro D
    rw [longestStreakCode_cons]
    simp [streakAux]

/-- The concrete database for the volume counterexample: one COMPLETED
session of user 1 on day 10, one detail, one set of 10 reps at
0.5 kg. -/
def volDb : WorkoutDB :=
  { sessions := [{ session_id := 1, user_id := 1, scheduled_date := 10,
                   status := "COMPLETED", gr_score := none, notes := none }]
    details := [{ session_detail_id := 1, session_id := 1, exercise_id := 1,
                  status := "UNFINISHED" }]
    sets := [{ set_id := 1, session_detail_id := 1, reps := some 10,
               weight_kg := some (1/2), duration := some 0,
               status := "COMPLETED", notes := none }]
    exercises := [{ exercise_id := 1, etype := some "strength",
                    category := some "Legs", difficulty_factor := some 1 }] }

/-- C5 is false as stated: on `volDb` (one completed set, 10 reps at
weight 0.5) the stored total volume is 5 — the code multiplies by the
weight whenever it is positive — whereas the claim's formula
`reps × max(weight_kg, 1)` gives 10. -/
theorem summaryVolume_claim_counterexample :
    summaryTotalVolume volDb 1 0 20 ≠ jsRound (completedSetsSum volDb 1 0 20 claimLogVolume)
      ∧ summaryTotalVolume volDb 1 0 20 = 5
      ∧ jsRound (completedSetsSum volDb 1 0 20 claimLogVolume) = 10 := by
  have h1 : summaryTotalVolume volDb 1 0 20 = 5 := by
    norm_num [summaryTotalVolume, summaryVolumeTotal, summaryWorkouts, volDb,
      sessionDetails, detailLogs, logVolume, effWeight, jsOrZ, jsOrQ, jsRound, ratFloor]
    decide
  have h2 : jsRound (completedSetsSum volDb 1 0 20 claimLogVolume) = 10 := by
    norm_num [completedSetsSum, volDb, sessionDetails, detailLogs, claimLogVolume,
      jsOrZ, jsOrQ, jsRound, ratFloor]
    decide
  exact ⟨by rw [h1, h2]; decide, h1, h2⟩

/-- C5 amended: the period-summary total volume is the rounded sum,
over all sets of COMPLETED sessions in the window, of
`reps × w` where `w` is the set's weight when that weight is
positive and 1 otherwise (so zero or blank weight still contributes
`reps`); sets of non-COMPLETED sessions contribute nothing. -/
theorem summaryVolume_amended :
    (∀ (db : WorkoutDB) (uid : ℕ) (startD endD : ℤ),
        summaryTotalVolume db uid startD endD
          = jsRound (completedSetsSum db uid startD endD logVolume))
    ∧ (∀ l : SetRow, l.weight_kg = some 0 ∨ l.weight_kg = none →
        logVolume l = (jsOrZ l.reps 0 : ℚ)) := by
  constructor
  · intro db uid startD endD
    unfold summaryTotalVolume
    rw [summaryVolumeTotal_eq_sum]
  · rintro l (h | h) <;> simp [logVolume, h, jsOrQ, effWeight]

theorem ratFloor_eq_floor (q : ℚ) : ratFloor q = ⌊q⌋ := by
  rw [Rat.floor_def, ratFloor, Int.fdiv_eq_ediv]
  omega

/-- Projecting one nutrient out of the rollup fold gives that
nutrient's sum, whenever the step adds exactly the contribution to the
projected field. -/
theorem rollup_field (m : MealJoin) (proj : NutrientTotals → ℚ) (f : FoodJoin → Option ℚ)
    (hstep : ∀ t d, proj (rollupStep t d) = proj t + nutrientContrib f d)
    (hzero : proj emptyTotals = 0) :
    proj (mealTotalsRaw m) = nutrientSum m f := by
  unfold mealTotalsRaw nutrientSum
  rw [foldl_proj rollupStep proj (nutrientContrib f) hstep m.details emptyTotals, hzero,
      zero_add]

/-- C8: each per-meal nutrition total is the 2-decimal round-half-up of
the sum of `food.N_per_serving × numbers_of_serving` over the meal's
detail rows, for all 14 nutrients, with missing values as 0; one food
at 2 servings of 100 calories per serving totals 200; zero details
give all totals 0. -/
theorem mealRollup_totals_claim :
    (∀ m : MealJoin,
        (mealRollup m).calories = round2 (nutrientSum m (fun f => f.calories_per_serving))
      ∧ (mealRollup m).protein = round2 (nutrientSum m (fun f => f.protein_per_serving))
      ∧ (mealRollup m).carbs = round2 (nutrientSum m (fun f => f.carbs_per_serving))
      ∧ (mealRollup m).fat = round2 (nutrientSum m (fun f => f.fat_per_serving))
      ∧ (mealRollup m).fibers = round2 (nutrientSum m (fun f => f.fibers_per_serving))
      ∧ (mealRollup m).sugars = round2 (nutrientSum m (fun f => f.sugars_per_serving))
      ∧ (mealRollup m).zincs = round2 (nutrientSum m (fun f => f.zincs_per_serving))
      ∧ (mealRollup m).magnesiums = round2 (nutrientSum m (fun f => f.magnesiums_per_serving))
      ∧ (mealRollup m).calciums = round2 (nutrientSum m (fun f => f.calciums_per_serving))
      ∧ (mealRollup m).irons = round2 (nutrientSum m (fun f => f.irons_per_serving))
      ∧ (mealRollup m).vitamin_a = round2 (nutrientSum m (fun f => f.vitamin_a_per_serving))
      ∧ (mealRollup m).vitamin_c = round2 (nutrientSum m (fun f => f.vitamin_c_per_serving))
      ∧ (mealRollup m).vitamin_b12 = round2 (nutrientSum m (fun f => f.vitamin_b12_per_serving))
      ∧ (mealRollup m).vitamin_d = round2 (nutrientSum m (fun f => f.vitamin_d_per_serving)))
    ∧ (∀ mid : ℕ,
        (mealRollup (MealJoin.mk mid
          [MealFoodJoin.mk (some 2)
            (some { calories_per_serving := some 100 })])).calories = 200)
    ∧ (∀ mid : ℕ, mealRollup (MealJoin.mk mid []) = emptyTotals) := by
  have h0 : round2 0 = 0 := by
    norm_num [round2, jsRound, ratFloor_eq_floor]
  refine ⟨fun m => ?_, fun mid => ?_, fun mid => ?_⟩
  · refine ⟨?_, ?_, ?_, ?_, ?_, ?_, ?_, ?_, ?_, ?_, ?_, ?_, ?_, ?_⟩
    · exact congrArg round2 (rollup_field m (fun t => t.calories)
        (fun f => f.calories_per_serving)
        (fun t d => by cases hf : d.food <;> simp [rollupStep, nutrientContrib, hf, jsOrQ])
        rfl)
    · exact congrArg round2 (rollup_field m (fun t => t.protein)
        (fun f => f.protein_per_serving)
        (fun t d => by cases hf : d.food <;> simp [rollupStep, nutrientContrib, hf, jsOrQ])
        rfl)
    · exact congrArg round2 (rollup_field m (fun t => t.carbs)
        (fun f => f.carbs_per_serving)
        (fun t d => by cases hf : d.food <;> simp [rollupStep, nutrientContrib, hf, jsOrQ])
        rfl)
    · exact congrArg round2 (rollup_field m (fun t => t.fat)
        (fun f => f.fat_per_serving)
        (fun t d => by cases hf : d.food <;> simp [rollupStep, nutrientContrib, hf, jsOrQ])
        rfl)
    · exact congrArg round2 (rollup_field m (fun t => t.fibers)
        (fun f => f.fibers_per_serving)
        (fun t d => by cases hf : d.food <;> simp [rollupStep, nutrientContrib, hf, jsOrQ])
        rfl)
    · exact congrArg round2 (rollup_field m (fun t => t.sugars)
        (fun f => f.sugars_per_serving)
        (fun t d => by cases hf : d.food <;> simp [rollupStep, nutrientContrib, hf, jsOrQ])
        rfl)
    · exact congrArg round2 (rollup_field m (fun t => t.zincs)
        (fun f => f.zincs_per_serving)
        (fun t d => by cases hf : d.food <;> simp [rollupStep, nutrientContrib, hf, jsOrQ])
        rfl)
    · exact congrArg round2 (rollup_field m (fun t => t.magnesiums)
        (fun f => f.magnesiums_per_serving)
        (fun t d => by cases hf : d.food <;> simp [rollupStep, nutrientContrib, hf, jsOrQ])
        rfl)
    · exact congrArg round2 (rollup_field m (fun t => t.calciums)
        (fun f => f.calciums_per_serving)
        (fun t d => by cases hf : d.food <;> simp [rollupStep, nutrientContrib, hf, jsOrQ])
        rfl)
    · exact congrArg round2 (rollup_field m (fun t => t.irons)
        (fun f => f.irons_per_serving)
        (fun t d => by cases hf : d.food <;> simp [rollupStep, nutrientContrib, hf, jsOrQ])
        rfl)
    · exact congrArg round2 (rollup_field m (fun t => t.vitamin_a)
        (fun f => f.vitamin_a_per_serving)
        (fun t d => by cases hf : d.food <;> simp [rollupStep, nutrientContrib, hf, jsOrQ])
        rfl)
    · exact congrArg round2 (rollup_field m (fun t => t.vitamin_c)
        (fun f => f.vitamin_c_per_serving)
        (fun t d => by cases hf : d.food <;> simp [rollupStep, nutrientContrib, hf, jsOrQ])
        rfl)
    · exact congrArg round2 (rollup_field m (fun t => t.vitamin_b12)
        (fun f => f.vitamin_b12_per_serving)
        (fun t d => by cases hf : d.food <;> simp [rollupStep, nutrientContrib, hf, jsOrQ])
        rfl)
    · exact congrArg round2 (rollup_field m (fun t => t.vitamin_d)
        (fun f => f.vitamin_d_per_serving)
        (fun t d => by cases hf : d.food <;> simp [rollupStep, nutrientContrib, hf, jsOrQ])
        rfl)
  · norm_num [mealRollup, mealTotalsRaw, rollupStep, emptyTotals, jsOrQ, round2, jsRound,
      ratFloor_eq_floor]
  · simp [mealRollup, mealTotalsRaw, emptyTotals, h0]

/-- Concrete database for the gr-score claims: one PENDING session of
user 1 with a stored score of 0, whose single set (10 reps at 10 kg,
difficulty absent) would score 100. -/
def grDb : WorkoutDB :=
  { sessions := [{ session_id := 1, user_id := 1, scheduled_date := 10,
                   status := "PENDING", gr_score := some 0, notes := none }]
    details := [{ session_detail_id := 1, session_id := 1, exercise_id := 1,
                  status := "UNFINISHED" }]
    sets := [{ set_id := 1, session_detail_id := 1, reps := some 10,
               weight_kg := some 10, duration := some 0,
               status := "COMPLETED", notes := none }]
    exercises := [{ exercise_id := 1, etype := some "strength",
                    category := some "Legs", difficulty_factor := none }] }

/-- C1 is false as stated: the AI-surface batch status update sets the
status of session 1 of `grDb` to COMPLETED yet leaves its stored
gr_score at 0, while the claim's recomputed score is 100. -/
theorem batchPut_no_grScore_recompute_counterexample :
    (aiSessionsBatchPut grDb 1 [1] "COMPLETED").sessions.map
        (fun s => (s.status, s.gr_score)) = [("COMPLETED", some 0)]
      ∧ jsRound (grScoreSpec grDb 1) = 100
      ∧ (aiSessionsBatchPut grDb 1 [1] "COMPLETED").sessions.map (fun s => s.gr_score)
          ≠ [some (jsRound (grScoreSpec grDb 1))] := by
  have h2 : jsRound (grScoreSpec grDb 1) = 100 := by
    norm_num [grScoreSpec, grDb, sessionDetails, detailLogs, detailDifficulty,
      detailExercise, grLogContribution, jsOrQ, jsOrZ, jsRound, ratFloor_eq_floor]
  refine ⟨by simp [aiSessionsBatchPut, grDb], h2, ?_⟩
  rw [h2]
  simp [aiSessionsBatchPut, grDb]

/-- C1 amended: the repository-level single-session update recomputes
the stored gr_score as `round(Σ reps × weight_kg × difficulty)` exactly
when the resulting status is COMPLETED and leaves every stored score
unchanged otherwise; the AI-surface batch status update never touches
the stored score, even when it sets COMPLETED. -/
theorem updateSession_grScore_amended :
    (∀ (db : WorkoutDB) (sid uid : ℕ) (b : SessionUpdateBody) (s' : SessionRow),
        sessionEffectiveStatus b = some "COMPLETED" →
        s' ∈ (updateSession db sid uid b).sessions →
        s'.session_id = sid → s'.user_id = uid →
        s'.gr_score = some (jsRound (grScoreSpec db sid)))
    ∧ (∀ (db : WorkoutDB) (sid uid : ℕ) (b : SessionUpdateBody),
        sessionEffectiveStatus b ≠ some "COMPLETED" →
        (updateSession db sid uid b).sessions.map (fun s => s.gr_score)
          = db.sessions.map (fun s => s.gr_score))
    ∧ (∀ (db : WorkoutDB) (uid : ℕ) (ids : List ℕ) (st : String),
        (aiSessionsBatchPut db uid ids st).sessions.map (fun s => s.gr_score)
          = db.sessions.map (fun s => s.gr_score)) := by
  refine ⟨?_, ?_, ?_⟩
  · intro db sid uid b s' hst hmem hsid huid
    unfold updateSession at hmem
    simp only [List.mem_map] at hmem
    obtain ⟨s, hs, heq⟩ := hmem
    by_cases hcond : s.session_id = sid ∧ s.user_id = uid
    · rw [if_pos hcond] at heq
      subst heq
      simp only [hst, if_pos rfl]
      simp [grScoreTotal_eq_spec]
    · rw [if_neg hcond] at heq
      subst heq
      exact absurd ⟨hsid, huid⟩ hcond
  · intro db sid uid b hst
    unfold updateSession
    rw [List.map_map]
    apply List.map_congr_left
    intro s _
    simp only [Function.comp_apply]
    by_cases hcond : s.session_id = sid ∧ s.user_id = uid
    · simp [if_pos hcond, if_neg hst]
    · simp [if_neg hcond]
  · intro db uid ids st
    unfold aiSessionsBatchPut
    rw [List.map_map]
    apply List.map_congr_left
    intro s _
    by_cases hcond : s.session_id ∈ ids ∧ s.user_id = uid
    · simp [if_pos hcond]
    · simp [if_neg hcond]

/-- Witness: on `grDb`, a repository update whose body carries
`status = "COMPLETED"` stores exactly the recomputed score 100. -/
theorem updateSession_grScore_amended_witness :
    (SessionRow.mk 1 1 10 "COMPLETED" (some 100) none)
        ∈ (updateSession grDb 1 1 (SessionUpdateBody.mk none none (some "COMPLETED") none)).sessions
      ∧ (SessionRow.mk 1 1 10 "COMPLETED" (some 100) none).gr_score
          = some (jsRound (grScoreSpec grDb 1)) := by
  have hmem : (SessionRow.mk 1 1 10 "COMPLETED" (some 100) none)
      ∈ (updateSession grDb 1 1 (SessionUpdateBody.mk none none (some "COMPLETED") none)).sessions := by
    norm_num [updateSession, grDb, sessionEffectiveStatus, grScoreTotal, sessionDetails,
      detailLogs, detailDifficulty, detailExercise, grLogContribution, jsOrQ, jsOrZ,
      jsRound, ratFloor_eq_floor]
  exact ⟨hmem,
    updateSession_grScore_amended.1 grDb 1 1
      (SessionUpdateBody.mk none none (some "COMPLETED") none)
      (SessionRow.mk 1 1 10 "COMPLETED" (some 100) none) rfl hmem rfl rfl⟩

/-- C10: a single-session update whose body omits `status` but carries
`completed` maps `true` to COMPLETED and `false` to IN_PROGRESS, while
the set-level boolean maps `false` to UNFINISHED; the two boolean
mappings differ. -/
theorem updateSession_completed_mapping :
    (∀ (db : WorkoutDB) (sid uid : ℕ) (b : SessionUpdateBody) (s' : SessionRow),
        b.status = none → b.completed = some true →
        s' ∈ (updateSession db sid uid b).sessions →
        s'.session_id = sid → s'.user_id = uid → s'.status = "COMPLETED")
    ∧ (∀ (db : WorkoutDB) (sid uid : ℕ) (b : SessionUpdateBody) (s' : SessionRow),
        b.status = none → b.completed = some false →
        s' ∈ (updateSession db sid uid b).sessions →
        s'.session_id = sid → s'.user_id = uid → s'.status = "IN_PROGRESS")
    ∧ logStatusToString (.bool false) = "UNFINISHED"
    ∧ "IN_PROGRESS" ≠ "UNFINISHED" := by
  refine ⟨?_, ?_, rfl, by decide⟩
  · intro db sid uid b s' hst hcomp hmem hsid huid
    unfold updateSession at hmem
    simp only [List.mem_map] at hmem
    obtain ⟨s, hs, heq⟩ := hmem
    by_cases hcond : s.session_id = sid ∧ s.user_id = uid
    · rw [if_pos hcond] at heq
      subst heq
      simp [sessionEffectiveStatus, hst, hcomp]
    · rw [if_neg hcond] at heq
      subst heq
      exact absurd ⟨hsid, huid⟩ hcond
  · intro db sid uid b s' hst hcomp hmem hsid huid
    unfold updateSession at hmem
    simp only [List.mem_map] at hmem
    obtain ⟨s, hs, heq⟩ := hmem
    by_cases hcond : s.session_id = sid ∧ s.user_id = uid
    · rw [if_pos hcond] at heq
      subst heq
      simp [sessionEffectiveStatus, hst, hcomp]
    · rw [if_neg hcond] at heq
      subst heq
      exact absurd ⟨hsid, huid⟩ hcond

/-- Witness: on `grDb`, `completed = true` stores COMPLETED and
`completed = false` stores IN_PROGRESS. -/
theorem updateSession_completed_mapping_witness :
    ((SessionRow.mk 1 1 10 "COMPLETED" (some 100) none)
        ∈ (updateSession grDb 1 1 (SessionUpdateBody.mk none none none (some true))).sessions
      ∧ (SessionRow.mk 1 1 10 "COMPLETED" (some 100) none).status = "COMPLETED")
    ∧ ((SessionRow.mk 1 1 10 "IN_PROGRESS" (some 0) none)
        ∈ (updateSession grDb 1 1 (SessionUpdateBody.mk none none none (some false))).sessions
      ∧ (SessionRow.mk 1 1 10 "IN_PROGRESS" (some 0) none).status = "IN_PROGRESS") := by
  have hmem1 : (SessionRow.mk 1 1 10 "COMPLETED" (some 100) none)
      ∈ (updateSession grDb 1 1 (SessionUpdateBody.mk none none none (some true))).sessions := by
    norm_num [updateSession, grDb, sessionEffectiveStatus, grScoreTotal, sessionDetails,
      detailLogs, detailDifficulty, detailExercise, grLogContribution, jsOrQ, jsOrZ,
      jsRound, ratFloor_eq_floor]
  have hmem2 : (SessionRow.mk 1 1 10 "IN_PROGRESS" (some 0) none)
      ∈ (updateSession grDb 1 1 (SessionUpdateBody.mk none none none (some false))).sessions := by
    simp [updateSession, grDb, sessionEffectiveStatus]
  exact ⟨⟨hmem1,
      updateSession_completed_mapping.1 grDb 1 1
        (SessionUpdateBody.mk none none none (some true))
        (SessionRow.mk 1 1 10 "COMPLETED" (some 100) none) rfl rfl hmem1 rfl rfl⟩,
    ⟨hmem2,
      updateSession_completed_mapping.2.1 grDb 1 1
        (SessionUpdateBody.mk none none none (some false))
        (SessionRow.mk 1 1 10 "IN_PROGRESS" (some 0) none) rfl rfl hmem2 rfl rfl⟩⟩

/-- Concrete database for the set-mutation claims: one strength
exercise, one detail (UNFINISHED), one set (UNFINISHED). -/
def logDb : WorkoutDB :=
  { sessions := [⟨1, 1, 10, "PENDING", none, none⟩]
    details := [⟨1, 1, 1, "UNFINISHED"⟩]
    sets := [⟨1, 1, some 5, some 20, some 0, "UNFINISHED", none⟩]
    exercises := [⟨1, some "strength", some "Legs", some 1⟩] }

/-- A set-update body that only marks the set completed. -/
def logBodyComplete : LogUpdateBody := { status := some (.bool true) }

/-- `logDb` after the legacy update marks its only set completed: the
set and its parent detail are both COMPLETED. -/
def logDbDone : WorkoutDB :=
  { sessions := [⟨1, 1, 10, "PENDING", none, none⟩]
    details := [⟨1, 1, 1, "COMPLETED"⟩]
    sets := [⟨1, 1, some 5, some 20, some 0, "COMPLETED", none⟩]
    exercises := [⟨1, some "strength", some "Legs", some 1⟩] }

/-- The updated set row of `logDbDone`. -/
def setDone : SetRow := ⟨1, 1, some 5, some 20, some 0, "COMPLETED", none⟩

/-- C7 is false as stated: the cardio-aware `updateLog` marks the only
set of `logDb` COMPLETED (so every sibling is COMPLETED) yet leaves the
parent detail status at UNFINISHED — no recomputation happens on this
code path. -/
theorem updateLogV2_no_parent_recompute_counterexample :
    (updateLogV2 logDb 1 logBodyComplete).map
        (fun r => (r.1.details.map (fun d => d.status), r.1.sets.map (fun l => l.status)))
      = some (["UNFINISHED"], ["COMPLETED"]) := by
  simp [updateLogV2, logDb, logBodyComplete, isCardioByLogId, isCardioBySessionDetailId,
    normalizeExerciseType, jsOrStr, toLower_lit_strength, logStatusToString,
    durationUpdateValue]

/-- C7 amended: the legacy `updateLog` recomputes and persists the
parent detail status as COMPLETED iff every sibling set is COMPLETED;
the cardio-aware `updateLog` leaves the `session_details` table
untouched. -/
theorem updateLog_parent_status_amended :
    (∀ (db : WorkoutDB) (logId : ℕ) (b : LogUpdateBody) (db' : WorkoutDB) (row : SetRow)
        (d' : DetailRow),
        updateLogV1 db logId b = some (db', row) →
        row.session_detail_id ≠ 0 →
        d' ∈ db'.details → d'.session_detail_id = row.session_detail_id →
        d'.status = (if (db'.sets.filter
              (fun l => l.session_detail_id = row.session_detail_id)).all
                (fun l => l.status = "COMPLETED")
            then "COMPLETED" else "UNFINISHED"))
    ∧ (∀ (db : WorkoutDB) (logId : ℕ) (b : LogUpdateBody) (db' : WorkoutDB) (row : SetRow),
        updateLogV2 db logId b = some (db', row) → db'.details = db.details)
    ∧ (∀ (db : WorkoutDB) (sdid : ℕ) (b : LogUpdateBody) (newId : ℕ)
        (db' : WorkoutDB) (row : SetRow),
        createLogV2 db sdid b newId = some (db', row) → db'.details = db.details) := by
  refine ⟨?_, ?_, ?_⟩
  · intro db logId b db' row d' happ hnz hmem hsd
    unfold updateLogV1 at happ
    cases hf : db.sets.find? (fun l => l.set_id = logId) with
    | none => rw [hf] at happ; exact absurd happ (by simp)
    | some row0 =>
        rw [hf] at happ
        simp only at happ
        split at happ
        · rw [Option.some.injEq, Prod.mk.injEq] at happ
          obtain ⟨hdb, hrow⟩ := happ
          subst hdb
          have hr : row.session_detail_id = row0.session_detail_id := by
            rw [← hrow]
          rw [hr] at hsd ⊢
          simp only [List.mem_map] at hmem
          obtain ⟨d0, hd0, heq⟩ := hmem
          by_cases hc : d0.session_detail_id = row0.session_detail_id
          · rw [if_pos hc] at heq
            subst heq
            rfl
          · rw [if_neg hc] at heq
            subst heq
            exact absurd hsd hc
        · rw [Option.some.injEq, Prod.mk.injEq] at happ
          obtain ⟨hdb, hrow⟩ := happ
          subst hrow
          simp_all
  · intro db logId b db' row happ
    unfold updateLogV2 at happ
    cases hc : isCardioByLogId db logId with
    | none => rw [hc] at happ; exact absurd happ (by simp)
    | some isCardio =>
        rw [hc] at happ
        simp only at happ
        cases hf : db.sets.find? (fun l => l.set_id = logId) with
        | none => rw [hf] at happ; exact absurd happ (by simp)
        | some row0 =>
            rw [hf] at happ
            rw [Option.some.injEq, Prod.mk.injEq] at happ
            obtain ⟨hdb, _⟩ := happ
            subst hdb
            rfl
  · intro db sdid b newId db' row happ
    unfold createLogV2 at happ
    cases hc : isCardioBySessionDetailId db sdid with
    | none => rw [hc] at happ; exact absurd happ (by simp)
    | some isCardio =>
        rw [hc] at happ
        rw [Option.some.injEq, Prod.mk.injEq] at happ
        obtain ⟨hdb, _⟩ := happ
        subst hdb
        rfl

/-- Witness: the legacy update on `logDb` produces `logDbDone`, whose
detail status matches the recomputed all-siblings-COMPLETED value. -/
theorem updateLog_parent_status_amended_witness :
    updateLogV1 logDb 1 logBodyComplete = some (logDbDone, setDone)
    ∧ (DetailRow.mk 1 1 1 "COMPLETED").status
        = (if (logDbDone.sets.filter
              (fun l => l.session_detail_id = setDone.session_detail_id)).all
                (fun l => l.status = "COMPLETED")
            then "COMPLETED" else "UNFINISHED") := by
  have happ : updateLogV1 logDb 1 logBodyComplete = some (logDbDone, setDone) := by decide
  exact ⟨happ,
    updateLog_parent_status_amended.1 logDb 1 logBodyComplete logDbDone setDone
      (DetailRow.mk 1 1 1 "COMPLETED") happ (by decide) (by decide) (by decide)⟩

/-- Concrete database with a cardio exercise: one cardio detail with
one 30-minute interval set. -/
def cardioDb : WorkoutDB :=
  { sessions := [⟨1, 1, 10, "PENDING", none, none⟩]
    details := [⟨1, 1, 1, "UNFINISHED"⟩]
    sets := [⟨1, 1, some 0, some 0, some 30, "UNFINISHED", none⟩]
    exercises := [⟨1, some "cardio", some "Cardio", some 1⟩] }

/-- C6 is false as stated: the AI `PUT /sets` handler updates a set
whose exercise is cardio with a caller-supplied `reps = 12`, writing
the field that does not match the exercise's type. -/
theorem aiSetsPut_mismatched_field_counterexample :
    isCardioBySessionDetailId cardioDb 1 = some true
    ∧ cardioDb.sets.map (fun l => l.reps) = [some 0]
    ∧ (aiSetsPut cardioDb 1 { set_id := 1, reps := some 12 }).1 = AiOutcome.ok
    ∧ ((aiSetsPut cardioDb 1 { set_id := 1, reps := some 12 }).2.sets.map
        (fun l => l.reps)) = [some 12] := by
  refine ⟨?_, by decide, by decide, by decide⟩
  simp [isCardioBySessionDetailId, cardioDb, normalizeExerciseType, jsOrStr,
    toLower_lit_cardio]

/-- C6 amended: the repository-level set create and update dispatch on
the exercise type — a cardio create zeroes `reps`/`weight_kg`, a
strength create zeroes `duration`, a cardio update leaves the stored
`reps`/`weight_kg` unchanged and a strength update leaves the stored
`duration` unchanged — while the AI `PUT /sets` handler writes
whichever fields the caller supplies with no such dispatch (see the
counterexample). -/
theorem setMutation_cardio_dispatch_amended :
    (∀ (db : WorkoutDB) (sdid : ℕ) (b : LogUpdateBody) (newId : ℕ)
        (db' : WorkoutDB) (row : SetRow),
        createLogV2 db sdid b newId = some (db', row) →
        isCardioBySessionDetailId db sdid = some true →
        row.reps = some 0 ∧ row.weight_kg = some 0)
    ∧ (∀ (db : WorkoutDB) (sdid : ℕ) (b : LogUpdateBody) (newId : ℕ)
        (db' : WorkoutDB) (row : SetRow),
        createLogV2 db sdid b newId = some (db', row) →
        isCardioBySessionDetailId db sdid = some false →
        row.duration = some 0)
    ∧ (∀ (db : WorkoutDB) (logId : ℕ) (b : LogUpdateBody)
        (db' : WorkoutDB) (row : SetRow) (old : SetRow),
        updateLogV2 db logId b = some (db', row) →
        isCardioByLogId db logId = some true →
        db.sets.find? (fun l => l.set_id = logId) = some old →
        row.reps = old.reps ∧ row.weight_kg = old.weight_kg)
    ∧ (∀ (db : WorkoutDB) (logId : ℕ) (b : LogUpdateBody)
        (db' : WorkoutDB) (row : SetRow) (old : SetRow),
        updateLogV2 db logId b = some (db', row) →
        isCardioByLogId db logId = some false →
        db.sets.find? (fun l => l.set_id = logId) = some old →
        row.duration = old.duration) := by
  refine ⟨?_, ?_, ?_, ?_⟩
  · intro db sdid b newId db' row happ hcardio
    unfold createLogV2 at happ
    rw [hcardio] at happ
    rw [Option.some.injEq, Prod.mk.injEq] at happ
    obtain ⟨_, hrow⟩ := happ
    subst hrow
    exact ⟨rfl, rfl⟩
  · intro db sdid b newId db' row happ hcardio
    unfold createLogV2 at happ
    rw [hcardio] at happ
    rw [Option.some.injEq, Prod.mk.injEq] at happ
    obtain ⟨_, hrow⟩ := happ
    subst hrow
    rfl
  · intro db logId b db' row old happ hcardio hold
    unfold updateLogV2 at happ
    rw [hcardio, hold] at happ
    rw [Option.some.injEq, Prod.mk.injEq] at happ
    obtain ⟨_, hrow⟩ := happ
    subst hrow
    exact ⟨rfl, rfl⟩
  · intro db logId b db' row old happ hcardio hold
    unfold updateLogV2 at happ
    rw [hcardio, hold] at happ
    rw [Option.some.injEq, Prod.mk.injEq] at happ
    obtain ⟨_, hrow⟩ := happ
    subst hrow
    rfl

/-- Witness: a cardio create on `cardioDb` stores zero reps and weight,
a strength create on `logDb` stores zero duration, and completing
updates on each leave the mismatched fields unchanged. -/
theorem setMutation_cardio_dispatch_amended_witness :
    ((SetRow.mk 2 1 (some 0) (some 0) (some 25) "UNFINISHED" none).reps = some 0
      ∧ (SetRow.mk 2 1 (some 0) (some 0) (some 25) "UNFINISHED" none).weight_kg = some 0)
    ∧ (SetRow.mk 2 1 (some 7) (some 0) (some 0) "UNFINISHED" none).duration = some 0 := by
  have hcardio : isCardioBySessionDetailId cardioDb 1 = some true := by
    simp [isCardioBySessionDetailId, cardioDb, normalizeExerciseType, jsOrStr,
      toLower_lit_cardio]
  have hstrength : isCardioBySessionDetailId logDb 1 = some false := by
    simp [isCardioBySessionDetailId, logDb, normalizeExerciseType, jsOrStr,
      toLower_lit_strength]
  have happ1 : createLogV2 cardioDb 1 { duration := some 25 } 2
      = some ({ cardioDb with
                sets := cardioDb.sets
                  ++ [SetRow.mk 2 1 (some 0) (some 0) (some 25) "UNFINISHED" none] },
              SetRow.mk 2 1 (some 0) (some 0) (some 25) "UNFINISHED" none) := by
    simp [createLogV2, hcardio, jsOrZ, jsOrQ]
  have happ2 : createLogV2 logDb 1 { reps := some 7 } 2
      = some ({ logDb with
                sets := logDb.sets
                  ++ [SetRow.mk 2 1 (some 7) (some 0) (some 0) "UNFINISHED" none] },
              SetRow.mk 2 1 (some 7) (some 0) (some 0) "UNFINISHED" none) := by
    simp [createLogV2, hstrength, jsOrZ, jsOrQ]
  exact ⟨setMutation_cardio_dispatch_amended.1 cardioDb 1 { duration := some 25 } 2 _ _
      happ1 hcardio,
    setMutation_cardio_dispatch_amended.2.1 logDb 1 { reps := some 7 } 2 _ _
      happ2 hstrength⟩

/-- A database whose only chain (set 1 → detail 1 → session 1) roots
at user 2: every row exists, but the owner is not user 1. -/
def foreignDb : WorkoutDB :=
  { sessions := [⟨1, 2, 10, "PENDING", none, none⟩]
    details := [⟨1, 1, 1, "UNFINISHED"⟩]
    sets := [⟨1, 1, some 5, some 20, some 0, "UNFINISHED", none⟩]
    exercises := [⟨1, some "strength", some "Legs", some 1⟩] }

/-- C2 is false as stated: on `foreignDb` every hop of the chain for
session-detail 1 exists and the root user is 2, yet the AI session-details
GET gives user 1 `ENTITY_NOT_FOUND`, not `ACCESS_DENIED`; and the AI
meal-foods POST on a missing meal gives `ACCESS_DENIED`, not a
not-found outcome — the two outcomes are collapsed in both directions. -/
theorem ai_ownership_outcomes_collapsed_counterexample :
    foreignDb.details.find? (fun d => d.session_detail_id = 1)
        = some (DetailRow.mk 1 1 1 "UNFINISHED")
    ∧ foreignDb.sessions.find? (fun s => s.session_id = 1)
        = some (SessionRow.mk 1 2 10 "PENDING" none none)
    ∧ sessionDetailsGetOutcome foreignDb 1 1 = AiOutcome.entityNotFound
    ∧ AiOutcome.entityNotFound ≠ AiOutcome.accessDenied
    ∧ (MealDB.mk [] []).meals.find? (fun m => m.meal_id = 5) = none
    ∧ mealFoodsPostOutcome (MealDB.mk [] []) 1 5 [(7, some 1)] = AiOutcome.accessDenied := by
  decide

/-- C2 amended: the AI sets PUT distinguishes a missing set or detail
(`ENTITY_NOT_FOUND`) from a complete chain with a foreign root
(`ACCESS_DENIED`), and the meal-foods PUT does the same for its
detail hop; but the session-details GET collapses a foreign owner into
`ENTITY_NOT_FOUND`, and the meal-foods POST collapses a missing meal
into `ACCESS_DENIED`. -/
theorem ai_ownership_outcomes_amended :
    (∀ (db : WorkoutDB) (uid : ℕ) (b : AiSetPutBody),
        b.set_id ≠ 0 →
        db.sets.find? (fun l => l.set_id = b.set_id) = none →
        (aiSetsPut db uid b).1 = AiOutcome.entityNotFound)
    ∧ (∀ (db : WorkoutDB) (uid : ℕ) (b : AiSetPutBody) (ed : SetRow) (sd : DetailRow)
        (sess : SessionRow),
        b.set_id ≠ 0 →
        db.sets.find? (fun l => l.set_id = b.set_id) = some ed →
        db.details.find? (fun d => d.session_detail_id = ed.session_detail_id) = some sd →
        db.sessions.find? (fun s => s.session_id = sd.session_id) = some sess →
        sess.user_id ≠ uid →
        (aiSetsPut db uid b).1 = AiOutcome.accessDenied)
    ∧ (∀ (db : MealDB) (uid mdid : ℕ) (nos : ℚ),
        mdid ≠ 0 →
        db.mealDetails.find? (fun d => d.meal_detail_id = mdid) = none →
        mealFoodsPutOutcome db uid mdid (some nos) = AiOutcome.entityNotFound)
    ∧ (∀ (db : MealDB) (uid mdid : ℕ) (nos : ℚ) (md : MealDetailRow) (m : MealRowOwn),
        mdid ≠ 0 →
        db.mealDetails.find? (fun d => d.meal_detail_id = mdid) = some md →
        db.meals.find? (fun mm => mm.meal_id = md.meal_id) = some m →
        m.user_id ≠ uid →
        mealFoodsPutOutcome db uid mdid (some nos) = AiOutcome.accessDenied)
    ∧ (∀ (db : WorkoutDB) (uid sdid : ℕ) (sd : DetailRow) (s : SessionRow),
        db.details.find? (fun d => d.session_detail_id = sdid) = some sd →
        db.sessions.find? (fun ss => ss.session_id = sd.session_id) = some s →
        s.user_id ≠ uid →
        sessionDetailsGetOutcome db uid sdid = AiOutcome.entityNotFound)
    ∧ (∀ (db : MealDB) (uid mealId : ℕ) (foods : List (ℕ × Option ℚ)),
        mealId ≠ 0 → foods ≠ [] →
        db.meals.find? (fun m => m.meal_id = mealId) = none →
        mealFoodsPostOutcome db uid mealId foods = AiOutcome.accessDenied) := by
  refine ⟨?_, ?_, ?_, ?_, ?_, ?_⟩
  · intro db uid b hnz hf
    unfold aiSetsPut
    rw [if_neg hnz, hf]
  · intro db uid b ed sd sess hnz hf hd hs hown
    unfold aiSetsPut
    rw [if_neg hnz, hf]
    simp [hd, hs, hown]
  · intro db uid mdid nos hnz hf
    unfold mealFoodsPutOutcome
    rw [if_neg (by simp [hnz]), hf]
  · intro db uid mdid nos md m hnz hf hm hown
    unfold mealFoodsPutOutcome
    rw [if_neg (by simp [hnz]), hf]
    simp only
    rw [hm]
    simp [hown]
  · intro db uid sdid sd s hf hs hown
    unfold sessionDetailsGetOutcome
    rw [hf]
    simp [hs, hown]
  · intro db uid mealId foods hnz hne hf
    unfold mealFoodsPostOutcome
    rw [if_neg (by simp [hnz, hne]), hf]

/-- Witness: on `foreignDb` (owner 2) user 1's sets PUT of a missing
set id gets `ENTITY_NOT_FOUND` while a complete foreign chain gets
`ACCESS_DENIED`; the foreign chain through the session-details GET
gets `ENTITY_NOT_FOUND`; a meal-foods POST against an absent meal gets
`ACCESS_DENIED`. -/
theorem ai_ownership_outcomes_amended_witness :
    (aiSetsPut foreignDb 1 { set_id := 99 }).1 = AiOutcome.entityNotFound
    ∧ (aiSetsPut foreignDb 1 { set_id := 1 }).1 = AiOutcome.accessDenied
    ∧ sessionDetailsGetOutcome foreignDb 1 1 = AiOutcome.entityNotFound
    ∧ mealFoodsPostOutcome (MealDB.mk [] []) 1 5 [(7, some 1)] = AiOutcome.accessDenied := by
  refine ⟨?_, ?_, ?_, ?_⟩
  · exact ai_ownership_outcomes_amended.1 foreignDb 1 { set_id := 99 }
      (by decide) (by decide)
  · exact ai_ownership_outcomes_amended.2.1 foreignDb 1 { set_id := 1 }
      (SetRow.mk 1 1 (some 5) (some 20) (some 0) "UNFINISHED" none)
      (DetailRow.mk 1 1 1 "UNFINISHED")
      (SessionRow.mk 1 2 10 "PENDING" none none)
      (by decide) (by decide) (by decide) (by decide) (by decide)
  · exact ai_ownership_outcomes_amended.2.2.2.2.1 foreignDb 1 1
      (DetailRow.mk 1 1 1 "UNFINISHED")
      (SessionRow.mk 1 2 10 "PENDING" none none)
      (by decide) (by decide) (by decide)
  · exact ai_ownership_outcomes_amended.2.2.2.2.2 (MealDB.mk [] []) 1 5 [(7, some 1)]
      (by decide) (by decide) (by decide)

/-- Two sessions of two different users, for the batch-delete claims. -/
def twoUserDb : WorkoutDB :=
  { sessions := [⟨1, 1, 10, "PENDING", none, none⟩, ⟨2, 2, 11, "PENDING", none, none⟩]
    details := []
    sets := []
    exercises := [] }

/-- C3 is false as stated: in the AI sessions batch delete with
`ids = [1, 2]` by user 1, id 2 belongs to user 2 — so one id fails the
ownership chain — yet session 1 is still deleted (only session 2
survives) instead of the whole batch being rejected. -/
theorem sessionsBatchDelete_partial_counterexample :
    (2 ∈ ([1, 2] : List ℕ))
    ∧ SessionRow.mk 2 2 11 "PENDING" none none ∈ twoUserDb.sessions
    ∧ SessionRow.mk 1 1 10 "PENDING" none none ∈ twoUserDb.sessions
    ∧ (aiSessionsDelete twoUserDb 1 [1, 2]).2.sessions
        = [SessionRow.mk 2 2 11 "PENDING" none none]
    ∧ (aiSessionsDelete twoUserDb 1 [1, 2]).2 ≠ twoUserDb := by
  decide

/-- A database where user 1 owns set 1 (chain to session 1) and user 2
owns set 2 (chain to session 2). -/
def mixedDb : WorkoutDB :=
  { sessions := [⟨1, 1, 10, "PENDING", none, none⟩, ⟨2, 2, 11, "PENDING", none, none⟩]
    details := [⟨1, 1, 1, "UNFINISHED"⟩, ⟨2, 2, 1, "UNFINISHED"⟩]
    sets := [⟨1, 1, some 5, some 20, some 0, "UNFINISHED", none⟩,
             ⟨2, 2, some 5, some 20, some 0, "UNFINISHED", none⟩]
    exercises := [⟨1, some "strength", some "Legs", some 1⟩] }

/-- C3 amended: the AI sets batch delete is all-or-nothing over the ids
that resolve to rows — if any resolved set's chain roots at a foreign
user the whole batch is rejected with the database unchanged — while
the AI sessions batch delete instead filters by `user_id`, deleting
exactly the caller-owned subset of the ids (ids that resolve to no row
are skipped by both). -/
theorem batchDelete_ownership_amended :
    (∀ (db : WorkoutDB) (uid : ℕ) (ids : List ℕ) (s : SetRow) (d : DetailRow)
        (sess : SessionRow),
        s ∈ db.sets → s.set_id ∈ ids →
        d ∈ db.details → d.session_detail_id = s.session_detail_id →
        sess ∈ db.sessions → sess.session_id = d.session_id →
        sess.user_id ≠ uid →
        aiSetsDelete db uid ids = (AiOutcome.accessDenied, db))
    ∧ (∀ (db : WorkoutDB) (uid : ℕ) (ids : List ℕ) (s : SessionRow),
        s ∈ db.sessions → s.session_id ∈ ids → s.user_id = uid →
        s ∉ (aiSessionsDelete db uid ids).2.sessions) := by
  constructor
  · intro db uid ids s d sess hsmem hsid hdmem hdsd hsessmem hsessid hown
    have hne : ids ≠ [] := by
      intro h
      rw [h] at hsid
      exact absurd hsid (List.not_mem_nil _)
    unfold aiSetsDelete
    rw [if_neg hne]
    rw [if_neg]
    intro hall
    rw [List.all_eq_true] at hall
    refine absurd (hall sess ?_) (by simpa using hown)
    refine List.mem_filter.mpr ⟨hsessmem, ?_⟩
    simp only [List.mem_map, List.mem_filter, decide_eq_true_eq]
    exact ⟨d, ⟨hdmem, ⟨s, ⟨hsmem, by simpa using hsid⟩, hdsd.symm⟩⟩, hsessid.symm⟩
  · intro db uid ids s hmem hid hown hcontra
    unfold aiSessionsDelete at hcontra
    by_cases hne : ids = []
    · rw [hne] at hid
      exact absurd hid (List.not_mem_nil _)
    · rw [if_neg hne] at hcontra
      simp only [List.mem_filter, decide_eq_true_eq] at hcontra
      exact hcontra.2 ⟨hid, hown⟩

/-- Witness: user 1's batch delete of set ids `[1, 2]` on `mixedDb`
(set 2 roots at user 2) is rejected whole with the database unchanged,
while in `twoUserDb` the sessions batch delete still removes user 1's
own listed session. -/
theorem batchDelete_ownership_amended_witness :
    aiSetsDelete mixedDb 1 [1, 2] = (AiOutcome.accessDenied, mixedDb)
    ∧ SessionRow.mk 1 1 10 "PENDING" none none
        ∉ (aiSessionsDelete twoUserDb 1 [1, 2]).2.sessions := by
  constructor
  · exact batchDelete_ownership_amended.1 mixedDb 1 [1, 2]
      (SetRow.mk 2 2 (some 5) (some 20) (some 0) "UNFINISHED" none)
      (DetailRow.mk 2 2 1 "UNFINISHED")
      (SessionRow.mk 2 2 11 "PENDING" none none)
      (by decide) (by decide) (by decide) (by decide) (by decide) (by decide) (by decide)
  · exact batchDelete_ownership_amended.2 twoUserDb 1 [1, 2]
      (SessionRow.mk 1 1 10 "PENDING" none none)
      (by decide) (by decide) (by decide)

/-- C9: with the user row matched by token or code still unverified and
its expiry missing or past, the verify endpoint deletes the row and
answers the expiry-specific error; an unmatched token or code gets the
distinct generic invalid error. -/
theorem verifyExpired_deletes_and_distinct_error :
    (∀ (users : List UserRow) (t : String) (c : Option String) (now : ℤ) (u : UserRow),
        verifyLookup users (some t) c = some u →
        u.verified = false →
        verificationExpired u now = true →
        verifyPost users (some t) c now
          = (VerifyResp.expired, users.filter (fun x => x.user_id ≠ u.user_id)))
    ∧ (∀ (users : List UserRow) (cstr : String) (now : ℤ) (u : UserRow),
        verifyLookup users none (some cstr) = some u →
        u.verified = false →
        verificationExpired u now = true →
        verifyPost users none (some cstr) now
          = (VerifyResp.expired, users.filter (fun x => x.user_id ≠ u.user_id)))
    ∧ (∀ (users : List UserRow) (t c : Option String) (now : ℤ),
        verifyLookup users t c = none →
        verifyPost users t c now = (VerifyResp.invalidCodeOrToken, users))
    ∧ VerifyResp.expired ≠ VerifyResp.invalidCodeOrToken := by
  refine ⟨?_, ?_, ?_, by decide⟩
  · intro users t c now u hl hv he
    unfold verifyPost
    rw [hl]
    simp [hv, he]
  · intro users cstr now u hl hv he
    unfold verifyPost
    rw [hl]
    simp [hv, he]
  · intro users t c now hl
    unfold verifyPost
    rw [hl]

/-- One unverified user whose verification expired at time 5. -/
def expiredUsers : List UserRow :=
  [⟨1, false, some "123456", some "tok", some 5⟩]

/-- Witness: at time 10, both the token and the code lookup on
`expiredUsers` hit the expiry branch: the row is deleted and the
expiry-specific error is returned; an unknown token gets the generic
invalid error. -/
theorem verifyExpired_deletes_and_distinct_error_witness :
    verifyPost expiredUsers (some "tok") none 10 = (VerifyResp.expired, [])
    ∧ verifyPost expiredUsers none (some "123456") 10 = (VerifyResp.expired, [])
    ∧ verifyPost [] (some "tok") none 10 = (VerifyResp.invalidCodeOrToken, []) := by
  refine ⟨?_, ?_, ?_⟩
  · have h := verifyExpired_deletes_and_distinct_error.1 expiredUsers "tok" none 10
      ⟨1, false, some "123456", some "tok", some 5⟩ (by decide) (by decide) (by decide)
    rw [h]
    decide
  · have h := verifyExpired_deletes_and_distinct_error.2.1 expiredUsers "123456" 10
      ⟨1, false, some "123456", some "tok", some 5⟩ (by decide) (by decide) (by decide)
    rw [h]
    decide
  · exact verifyExpired_deletes_and_distinct_error.2.2.1 [] (some "tok") none 10 (by decide)

end Traindiary
